import Mathlib

/-!
Verification of the ICBC booking checker (`icbc_checker.py`).

The script has one mutable piece of state, the module-level set
`previous_appointments` (line 76, initialized empty), and one recurring
task, `check_appointments` (lines 315-379), driven by a fixed-interval
timer.  Each cycle constructs an `ICBCChecker` (a browser driver), logs
in, scrapes the availability list, classifies it against the previous
snapshot, sends a Discord message, overwrites the state, and closes the
driver in a `finally` block.

The external collaborators (the Chrome driver constructor, the login
navigation, the scraping steps, the Discord channel lookup and sends)
are modelled by an `Oracle` record giving the outcome each external call
would produce during one cycle; the cycle itself is embedded faithfully
from the source, including its `try`/`except`/`finally` structure and
which internal calls swallow exceptions (`login` and `check_availability`
catch everything; `channel.send` can raise into the outer handler).
-/

namespace ICBC

/-- A snapshot is a Python set of opaque slot-description strings
(line 326: `current_appointments = set(appointments)`). -/
abbrev Snapshot := Finset String

/-- The three notification messages built in `check_appointments`
(lines 336-357), plus the generic error message of the `except` block
(lines 370-373).  Message text is abstracted to the constructor and the
set of slots it lists. -/
inductive Msg
  | newSlots (slots : Snapshot)
  | noneAvailable
  | unchanged (slots : Snapshot)
  | checkerError
  deriving DecidableEq

/-- The change classification inlined at lines 334-357:
`new_appointments = current_appointments - previous_appointments`;
`if new_appointments:` send the new-slots message, `elif not
current_appointments:` send the none-available message, `else:` send the
unchanged message.  (Python truthiness of a set is nonemptiness.)
Determinism is inherent: this is a function of the two sets. -/
def classify (previous current : Snapshot) : Msg :=
  let new_appointments := current \ previous
  if new_appointments.Nonempty then .newSlots new_appointments
  else if current = ∅ then .noneAvailable
  else .unchanged current

/-- Outcome of the external scraping steps inside `check_availability`:
either the list of appointment strings collected from the page, or a
raised navigation/parse exception. -/
inductive FetchOutcome
  | ok (slots : List String)
  | raise
  deriving DecidableEq

/-- `check_availability` (lines 187-284): every exception raised by the
scraping steps is caught and the empty list returned (lines 277-279 and
281-284); the no-appointments branch (lines 247-250) is the `.ok []`
case.  No exception ever propagates to the caller. -/
def check_availability (f : FetchOutcome) : List String :=
  match f with
  | .ok slots => slots
  | .raise => []

/-- Outcomes of the external calls made during one poll cycle. -/
structure Oracle where
  /-- `ICBCChecker()` (line 321): `setup_driver` re-raises on failure
  (line 154), leaving the local `checker` as `None`. -/
  setupOk : Bool
  /-- `checker.login()` (line 322): returns `False` on any
  authentication failure (lines 180-185 catch every exception). -/
  loginOk : Bool
  /-- The scraping steps inside `checker.check_availability`. -/
  fetch : FetchOutcome
  /-- `client.get_channel` (line 329) returns a channel (not `None`). -/
  channelFound : Bool
  /-- The classification send (line 341, 348 or 356) does not raise. -/
  mainSendOk : Bool
  /-- The error-notification send (line 373) does not raise.  Its
  failure is caught by the inner handler (lines 374-375) and logged;
  the cycle result does not depend on this field. -/
  errSendOk : Bool
  deriving DecidableEq

/-- Observable outcome of one execution of `check_appointments`. -/
structure CycleResult where
  /-- The value of `previous_appointments` after the cycle. -/
  previous : Snapshot
  /-- The `channel.send` calls attempted, in order (a failed send is
  still an attempt). -/
  attempts : List Msg
  /-- Whether `checker.check_availability()` was called (line 323). -/
  fetchInvoked : Bool
  /-- Whether the overwrite `previous_appointments =
  current_appointments` (lines 359-360) executed. -/
  wrote : Bool
  /-- Whether `checker.close()` was called (lines 378-379). -/
  closed : Bool
  deriving DecidableEq

/-- Result of the `try` block of `check_appointments` (lines 320-360):
whether it raised, the value `previous_appointments` holds when it ends,
the sends attempted, whether the fetch ran, and whether the overwrite
ran.  Only the `ICBCChecker()` constructor and `channel.send` can raise
here; `login` and `check_availability` swallow their own exceptions. -/
structure TryOutcome where
  raised : Bool
  newPrev : Snapshot
  attempts : List Msg
  fetchInvoked : Bool
  wrote : Bool
  deriving DecidableEq

/-- The `try` block, lines 320-360.  On login failure the whole body
under `if checker.login():` is skipped, so nothing is sent and the state
is untouched.  The classification and send happen only under
`if channel:` (lines 330-357), while the overwrite (lines 359-360) is
outside that guard; a raising send aborts the body before the
overwrite. -/
def tryBody (o : Oracle) (prev : Snapshot) : TryOutcome :=
  if o.setupOk = false then ⟨true, prev, [], false, false⟩
  else if o.loginOk = false then ⟨false, prev, [], false, false⟩
  else
    let current := (check_availability o.fetch).toFinset
    if o.channelFound = false then ⟨false, current, [], true, true⟩
    else
      let m := classify prev current
      if o.mainSendOk = false then ⟨true, prev, [m], true, false⟩
      else ⟨false, current, [m], true, true⟩

/-- One execution of `check_appointments` (lines 315-379) from state
`prev`.  The `except` block (lines 362-375) catches any exception from
the body, logs it, and attempts the generic error notification when the
channel is found (its own send failure is caught and logged, lines
374-375).  The `finally` block (lines 377-379) closes the driver exactly
when `checker` was assigned, i.e. when the constructor succeeded;
`close` catches its own exceptions (lines 286-292). -/
def check_appointments (o : Oracle) (prev : Snapshot) : CycleResult :=
  let t := tryBody o prev
  if t.raised = true then
    ⟨prev, t.attempts ++ (if o.channelFound = true then [Msg.checkerError] else []),
      t.fetchInvoked, false, o.setupOk⟩
  else
    ⟨t.newPrev, t.attempts, t.fetchInvoked, t.wrote, o.setupOk⟩

/-- The state of `previous_appointments` at each tick of the
`tasks.loop` timer: empty at start (line 76), then the result of one
cycle per tick; `os n` gives the external outcomes of tick `n`. -/
def loopState (os : Nat → Oracle) : Nat → Snapshot
  | 0 => ∅
  | n + 1 => (check_appointments (os n) (loopState os n)).previous

/-! ## Startup and configuration (lines 34-67 and 381-391)

The script reads six environment variables.  `DISCORD_CHANNEL_ID` is
checked for presence and converted with Python's `int()` (lines 42-64),
`CHECK_INTERVAL_MINUTES` is converted with `int()` with default `"5"`
(line 67), and `__main__` checks the five required variables for
truthiness (lines 382-388) before `client.run` (line 391), which never
returns.  `int()` is a Python builtin; `pyInt` below models it on ASCII
input: surrounding whitespace is stripped, an optional single `+`/`-`
sign is allowed, and the rest must be decimal digits with single
underscores permitted only between two digits. -/

/-- Digit tail of a Python integer literal: after an accumulated value
`acc`, consume decimal digits, allowing a single underscore only
between two digits. -/
def pyDigits (acc : Nat) : List Char → Option Nat
  | [] => some acc
  | [c] => if c.isDigit then some (10 * acc + (c.toNat - 48)) else none
  | c :: c2 :: cs =>
    if c.isDigit then pyDigits (10 * acc + (c.toNat - 48)) (c2 :: cs)
    else if c = '_' then
      if c2.isDigit then pyDigits (10 * acc + (c2.toNat - 48)) cs else none
    else none

/-- An unsigned Python integer literal: at least one digit, starting
with a digit. -/
def pyUnsigned : List Char → Option Nat
  | [] => none
  | c :: cs => if c.isDigit then pyDigits (c.toNat - 48) cs else none

/-- Optional sign in front of the digits. -/
def pyIntChars : List Char → Option Int
  | '+' :: rest => (pyUnsigned rest).map Int.ofNat
  | '-' :: rest => (pyUnsigned rest).map fun n => -(n : Int)
  | rest => (pyUnsigned rest).map Int.ofNat

/-- Strip whitespace from both ends. -/
def stripEnds (l : List Char) : List Char :=
  ((l.dropWhile Char.isWhitespace).reverse.dropWhile Char.isWhitespace).reverse

/-- Model of Python's `int(s)` on an ASCII string: `some` the value, or
`none` when `int` raises `ValueError`. -/
def pyInt (s : String) : Option Int :=
  pyIntChars (stripEnds s.toList)

/-- The six environment variables read at lines 34-40 and 67; `none`
models an unset variable (`os.getenv` returning `None`). -/
structure Config where
  lastName : Option String
  licenseNumber : Option String
  keyword : Option String
  botToken : Option String
  channelId : Option String
  checkIntervalMinutes : Option String
  deriving DecidableEq

/-- Python truthiness of an `os.getenv` result: `None` and the empty
string are falsy (`if not DISCORD_CHANNEL_ID`, `if not os.getenv(var)`,
lines 42 and 384). -/
def truthy : Option String → Bool
  | none => false
  | some s => decide (s ≠ "")

/-- The five variables in `required_vars` (line 383), in order. -/
def requiredValues (c : Config) : List (Option String) :=
  [c.lastName, c.licenseNumber, c.keyword, c.botToken, c.channelId]

/-- What the process does at startup: exit with a status code, or enter
the run loop (`client.run`) with the parsed channel id and interval. -/
inductive StartupResult
  | exitCode (status : Nat)
  | runLoop (channelId : Int) (intervalMinutes : Int)
  deriving DecidableEq

/-- Startup, in execution order: the module-level `DISCORD_CHANNEL_ID`
presence check (lines 42-58, `exit(1)`), its `int()` conversion (lines
60-64, `exit(1)` on `ValueError`), the `CHECK_INTERVAL` conversion
(line 67: a `ValueError` here is uncaught, terminating the process with
status 1), the `__main__` required-variable check (lines 382-388,
`exit(1)`), then `client.run` (line 391), which runs indefinitely. -/
def startup (c : Config) : StartupResult :=
  if truthy c.channelId = false then .exitCode 1
  else
    match pyInt (c.channelId.getD "") with
    | none => .exitCode 1
    | some cid =>
      match pyInt (c.checkIntervalMinutes.getD "5") with
      | none => .exitCode 1
      | some interval =>
        if (requiredValues c).all truthy then .runLoop cid interval
        else .exitCode 1

/-! ## Claims -/

/-- C1: for every pair of snapshots, the change classification selects
exactly one of three mutually exclusive, exhaustive cases in priority
order — new slots when `current - previous` is non-empty, none-available
when `current` is empty, unchanged otherwise — and, as the cycle
classifies `set(appointments)`, the selection depends only on the sets:
permuting the scraped list leaves the classification unchanged. -/
theorem c1_classify_cases :
    (∀ A B : Snapshot,
      ((B \ A).Nonempty ∧ classify A B = .newSlots (B \ A)) ∨
      (¬ (B \ A).Nonempty ∧ B = ∅ ∧ classify A B = .noneAvailable) ∨
      (¬ (B \ A).Nonempty ∧ B ≠ ∅ ∧ classify A B = .unchanged B)) ∧
    (∀ (A : Snapshot) (l₁ l₂ : List String), l₁.Perm l₂ →
      classify A l₁.toFinset = classify A l₂.toFinset) := by
  constructor
  · intro A B
    by_cases h : (B \ A).Nonempty
    · exact Or.inl ⟨h, by simp [classify, h]⟩
    · by_cases he : B = ∅
      · exact Or.inr (Or.inl ⟨h, he, by simp [classify, h, he]⟩)
      · exact Or.inr (Or.inr ⟨h, he, by simp [classify, h, he]⟩)
  · intro A l₁ l₂ hp
    rw [List.toFinset_eq_of_perm _ _ hp]

/-- Witness for C1 at concrete inputs: the trichotomy at
`A = ∅`, `B = ∅`, and order-independence for a permuted pair. -/
theorem c1_classify_cases_witness :
    ((((∅ : Snapshot) \ ∅).Nonempty ∧ classify ∅ ∅ = .newSlots (∅ \ ∅)) ∨
      (¬ ((∅ : Snapshot) \ ∅).Nonempty ∧ (∅ : Snapshot) = ∅ ∧
        classify ∅ ∅ = .noneAvailable) ∨
      (¬ ((∅ : Snapshot) \ ∅).Nonempty ∧ (∅ : Snapshot) ≠ ∅ ∧
        classify ∅ ∅ = .unchanged ∅)) ∧
    classify {"a"} (["a", "b"].toFinset) = classify {"a"} (["b", "a"].toFinset) :=
  ⟨c1_classify_cases.1 ∅ ∅,
    c1_classify_cases.2 {"a"} ["a", "b"] ["b", "a"] (by decide)⟩

/-- C2 is false as stated: a scrape failure does not leave
`previous_appointments` unchanged.  `check_availability` swallows the
exception and returns `[]`, so the cycle completes the success path and
overwrites the previous snapshot `{"a"}` with the empty set. -/
theorem c2_scrape_overwrites :
    (check_appointments ⟨true, true, .raise, true, true, true⟩ {"a"}).previous
      ≠ ({"a"} : Snapshot) := by
  decide

/-- C2 amended: the overwrite (line 360) executes iff the driver
constructor and the login succeed and, when the channel is found, the
classification send does not raise; when it does not execute the state
keeps its pre-cycle value, and when it executes the state becomes the
fetched snapshot — which is `∅` after a swallowed scrape failure, so
only authentication, setup and send failures preserve the state. -/
theorem c2_overwrite_characterization (o : Oracle) (prev : Snapshot) :
    ((check_appointments o prev).wrote = true ↔
      (o.setupOk = true ∧ o.loginOk = true ∧
        (o.channelFound = true → o.mainSendOk = true))) ∧
    ((check_appointments o prev).wrote = false →
      (check_appointments o prev).previous = prev) ∧
    ((check_appointments o prev).wrote = true →
      (check_appointments o prev).previous = (check_availability o.fetch).toFinset) := by
  rcases o with ⟨su, lo, fe, ch, ms, es⟩
  cases su <;> cases lo <;> cases ch <;> cases ms <;>
    simp [check_appointments, tryBody]

/-- Witness for C2's amended statement: a fully successful cycle writes
the fetched snapshot, and an auth-failing cycle keeps the old state. -/
theorem c2_overwrite_characterization_witness :
    (check_appointments ⟨true, true, .ok ["a"], true, true, true⟩ ∅).previous
      = (check_availability (.ok ["a"])).toFinset ∧
    (check_appointments ⟨true, false, .ok ["a"], true, true, true⟩ {"b"}).previous
      = ({"b"} : Snapshot) :=
  ⟨(c2_overwrite_characterization ⟨true, true, .ok ["a"], true, true, true⟩ ∅).2.2 rfl,
    (c2_overwrite_characterization ⟨true, false, .ok ["a"], true, true, true⟩ {"b"}).2.1 rfl⟩

/-- C3 is false as stated: an authentication failure (login returns
`False`) leaves the state unchanged but sends no notification at all —
the whole body under `if checker.login():` is skipped, and no exception
reaches the `except` block that sends the generic failure message. -/
theorem c3_auth_fail_silent :
    (check_appointments ⟨true, false, .ok [], true, true, true⟩ {"a"}).attempts = [] ∧
    (check_appointments ⟨true, false, .ok [], true, true, true⟩ {"a"}).previous
      = ({"a"} : Snapshot) := by
  constructor <;> rfl

/-- C3 amended: an authentication failure leaves the state unchanged
and sends nothing; the generic failure notification is attempted only
when the cycle body raises (e.g. the driver constructor fails), and in
that case the state is unchanged and the message is attempted exactly
when the channel is found; a scrape failure never reaches the failure
path — it is swallowed into an empty snapshot on the success path. -/
theorem c3_failure_paths (o : Oracle) (prev : Snapshot) :
    (o.setupOk = true → o.loginOk = false →
      (check_appointments o prev).attempts = [] ∧
      (check_appointments o prev).previous = prev) ∧
    (o.setupOk = false →
      (check_appointments o prev).previous = prev ∧
      (check_appointments o prev).attempts =
        (if o.channelFound = true then [Msg.checkerError] else [])) ∧
    (o.setupOk = true → o.loginOk = true → o.fetch = .raise →
      (o.channelFound = true → o.mainSendOk = true) →
      (check_appointments o prev).wrote = true) := by
  rcases o with ⟨su, lo, fe, ch, ms, es⟩
  cases su <;> cases lo <;> cases ch <;> cases ms <;>
    simp [check_appointments, tryBody]

/-- Witness for C3's amended statement: auth failure silent, setup
failure notified with state preserved. -/
theorem c3_failure_paths_witness :
    ((check_appointments ⟨true, false, .ok [], true, true, true⟩ {"a"}).attempts = [] ∧
      (check_appointments ⟨true, false, .ok [], true, true, true⟩ {"a"}).previous
        = ({"a"} : Snapshot)) ∧
    ((check_appointments ⟨false, true, .ok [], true, true, true⟩ {"a"}).previous
        = ({"a"} : Snapshot) ∧
      (check_appointments ⟨false, true, .ok [], true, true, true⟩ {"a"}).attempts =
        (if (true : Bool) = true then [Msg.checkerError] else [])) :=
  ⟨(c3_failure_paths ⟨true, false, .ok [], true, true, true⟩ {"a"}).1 rfl rfl,
    (c3_failure_paths ⟨false, true, .ok [], true, true, true⟩ {"a"}).2.1 rfl⟩

/-- C4 is false as stated: a navigation/parse failure during the fetch
does not surface as an error — `check_availability` catches it and
returns the empty list, and the cycle proceeds on the success path
(classifying and overwriting) as if an empty snapshot had been
observed. -/
theorem c4_scrape_swallowed :
    check_availability .raise = [] ∧
    (check_appointments ⟨true, true, .raise, true, true, true⟩ {"a"}).wrote = true ∧
    (check_appointments ⟨true, true, .raise, true, true, true⟩ {"a"}).attempts
      = [Msg.noneAvailable] := by
  refine ⟨rfl, rfl, ?_⟩
  decide

/-- C4 amended: after a successful authentication the poll does request
the availability snapshot, but every navigation/parse failure during the
fetch is caught inside `check_availability`, which returns the empty
list; the cycle then continues on the success path with an empty
snapshot instead of returning a scrape error. -/
theorem c4_fetch_after_login (o : Oracle) (prev : Snapshot) :
    (o.setupOk = true → o.loginOk = true →
      (check_appointments o prev).fetchInvoked = true) ∧
    check_availability .raise = [] ∧
    (o.setupOk = true → o.loginOk = true → o.fetch = .raise →
      (o.channelFound = true → o.mainSendOk = true) →
      (check_appointments o prev).wrote = true ∧
      (check_appointments o prev).previous = ∅) := by
  rcases o with ⟨su, lo, fe, ch, ms, es⟩
  cases su <;> cases lo <;> cases ch <;> cases ms <;> cases fe <;>
    simp [check_appointments, tryBody, check_availability]

/-- Witness for C4's amended statement at a concrete failing fetch. -/
theorem c4_fetch_after_login_witness :
    (check_appointments ⟨true, true, .raise, false, true, true⟩ {"a"}).fetchInvoked = true ∧
    (check_appointments ⟨true, true, .raise, false, true, true⟩ {"a"}).wrote = true ∧
    (check_appointments ⟨true, true, .raise, false, true, true⟩ {"a"}).previous = ∅ :=
  ⟨(c4_fetch_after_login ⟨true, true, .raise, false, true, true⟩ {"a"}).1 rfl rfl,
    ((c4_fetch_after_login ⟨true, true, .raise, false, true, true⟩ {"a"}).2.2
      rfl rfl rfl (by simp)).1,
    ((c4_fetch_after_login ⟨true, true, .raise, false, true, true⟩ {"a"}).2.2
      rfl rfl rfl (by simp)).2⟩

/-- C5: on every exit path of a poll cycle — success, login failure,
swallowed scrape failure, constructor failure, send failure — the
`finally` block closes the driver exactly when it was acquired (the
constructor succeeded and assigned `checker`). -/
theorem c5_session_closed (o : Oracle) (prev : Snapshot) :
    (check_appointments o prev).closed = o.setupOk := by
  rcases o with ⟨su, lo, fe, ch, ms, es⟩
  cases su <;> cases lo <;> cases ch <;> cases ms <;>
    simp [check_appointments, tryBody]

/-- C6 is false as stated: with every required key present and truthy
and a channel id that parses as an integer, a malformed
`CHECK_INTERVAL_MINUTES` still terminates the process with status 1
(an uncaught `ValueError` at line 67) instead of running indefinitely. -/
theorem c6_bad_interval_exits :
    startup ⟨some "x", some "x", some "x", some "x", some "123", some "abc"⟩
      = .exitCode 1 ∧
    (requiredValues
      ⟨some "x", some "x", some "x", some "x", some "123", some "abc"⟩).all truthy
      = true ∧
    pyInt "123" = some 123 := by
  decide

/-- C6 amended: the process enters the run loop iff every required key
is set and non-empty, the channel id parses as an integer, and the check
interval (defaulting to `"5"`) parses as an integer; in every other
configuration it terminates with status 1 before the run loop — status 1
is the only exit path. -/
theorem c6_startup_characterization (c : Config) :
    ((∃ cid iv, startup c = .runLoop cid iv) ↔
      ((requiredValues c).all truthy = true ∧
        (pyInt (c.channelId.getD "")).isSome = true ∧
        (pyInt (c.checkIntervalMinutes.getD "5")).isSome = true)) ∧
    ((∃ cid iv, startup c = .runLoop cid iv) ∨ startup c = .exitCode 1) := by
  constructor
  · constructor
    · intro ⟨cid, itv, h⟩
      unfold startup at h
      split at h
      · cases h
      · split at h
        · cases h
        · rename_i v hpi
          split at h
          · cases h
          · rename_i w hpv
            split at h
            · rename_i hall
              exact ⟨hall, by rw [hpi]; rfl, by rw [hpv]; rfl⟩
            · cases h
    · intro ⟨hall, hci, hiv⟩
      have hct : truthy c.channelId = true := by
        simp only [requiredValues, List.all_cons, List.all_nil,
          Bool.and_eq_true, Bool.and_true] at hall
        exact hall.2.2.2.2
      rcases hpi : pyInt (c.channelId.getD "") with _ | v
      · rw [hpi] at hci; cases hci
      · rcases hpv : pyInt (c.checkIntervalMinutes.getD "5") with _ | w
        · rw [hpv] at hiv; cases hiv
        · refine ⟨v, w, ?_⟩
          unfold startup
          rw [hpi, hpv]
          simp [hct, hall]
  · unfold startup
    split
    · exact Or.inr rfl
    · split
      · exact Or.inr rfl
      · split
        · exact Or.inr rfl
        · split
          · exact Or.inl ⟨_, _, rfl⟩
          · exact Or.inr rfl

/-- Witness for C6's amended statement: a complete configuration with a
defaulted interval enters the run loop. -/
theorem c6_startup_characterization_witness :
    ∃ cid iv,
      startup ⟨some "x", some "x", some "x", some "x", some "123", none⟩
        = .runLoop cid iv :=
  (c6_startup_characterization
    ⟨some "x", some "x", some "x", some "x", some "123", none⟩).1.mpr (by decide)

/-- C7: a failure of the classification send is caught inside the
cycle: the message is attempted exactly once (no retry within the
cycle) followed only by the generic error message, the cycle result
does not depend on whether the error-notification send itself fails
(that failure is only logged), and the loop's next tick proceeds from
the cycle's resulting state. -/
theorem c7_send_failure_not_fatal (o : Oracle) (prev : Snapshot)
    (hs : o.setupOk = true) (hl : o.loginOk = true)
    (hc : o.channelFound = true) (hm : o.mainSendOk = false) :
    (check_appointments o prev).attempts =
      [classify prev (check_availability o.fetch).toFinset, Msg.checkerError] ∧
    (∀ b : Bool,
      check_appointments
        ⟨o.setupOk, o.loginOk, o.fetch, o.channelFound, o.mainSendOk, b⟩ prev =
        check_appointments o prev) ∧
    (∀ (os : Nat → Oracle) (n : Nat),
      loopState os (n + 1) = (check_appointments (os n) (loopState os n)).previous) := by
  rcases o with ⟨su, lo, fe, ch, ms, es⟩
  subst hs hl hc hm
  refine ⟨by simp [check_appointments, tryBody], fun b => rfl, fun os n => rfl⟩

/-- Witness for C7 at a concrete failing send. -/
theorem c7_send_failure_not_fatal_witness :
    (check_appointments ⟨true, true, .ok ["a"], true, false, true⟩ ∅).attempts =
      [classify ∅ (check_availability (.ok ["a"])).toFinset, Msg.checkerError] :=
  (c7_send_failure_not_fatal ⟨true, true, .ok ["a"], true, false, true⟩ ∅
    rfl rfl rfl rfl).1

/-- C8: when authentication fails (login returns `False`), the fetch is
never invoked in that cycle, no overwrite happens, and the state keeps
its pre-cycle value — the cycle ends as an authentication failure. -/
theorem c8_auth_fail_no_fetch (o : Oracle) (prev : Snapshot)
    (hs : o.setupOk = true) (hl : o.loginOk = false) :
    (check_appointments o prev).fetchInvoked = false ∧
    (check_appointments o prev).wrote = false ∧
    (check_appointments o prev).previous = prev := by
  rcases o with ⟨su, lo, fe, ch, ms, es⟩
  subst hs hl
  refine ⟨rfl, rfl, rfl⟩

/-- Witness for C8 at a concrete failing login. -/
theorem c8_auth_fail_no_fetch_witness :
    (check_appointments ⟨true, false, .ok ["a"], true, true, true⟩ {"b"}).fetchInvoked
      = false :=
  (c8_auth_fail_no_fetch ⟨true, false, .ok ["a"], true, true, true⟩ {"b"} rfl rfl).1

/-- C9 is false as stated: a cycle whose poll succeeds but whose
notification send raises skips the overwrite — line 360 never executes,
so the overwrite is not performed on every successful poll cycle. -/
theorem c9_send_failure_skips_overwrite :
    (check_appointments ⟨true, true, .ok ["a"], true, false, true⟩ {"a"}).wrote
      = false := by
  rfl

/-- C9 amended: every successful poll cycle in which the notification
send does not raise overwrites the state with the new snapshot, even
when it is empty or equal to the previous one; two consecutive such
cycles observing the same slot list each independently perform the
overwrite with an equal value. -/
theorem c9_success_overwrites (o₁ o₂ : Oracle) (prev : Snapshot) (l : List String)
    (h1 : o₁.setupOk = true) (h2 : o₁.loginOk = true)
    (h3 : o₁.channelFound = true → o₁.mainSendOk = true) (h4 : o₁.fetch = .ok l)
    (g1 : o₂.setupOk = true) (g2 : o₂.loginOk = true)
    (g3 : o₂.channelFound = true → o₂.mainSendOk = true) (g4 : o₂.fetch = .ok l) :
    (check_appointments o₁ prev).wrote = true ∧
    (check_appointments o₁ prev).previous = l.toFinset ∧
    (check_appointments o₂ (check_appointments o₁ prev).previous).wrote = true ∧
    (check_appointments o₂ (check_appointments o₁ prev).previous).previous
      = l.toFinset := by
  rcases o₁ with ⟨su₁, lo₁, fe₁, ch₁, ms₁, es₁⟩
  rcases o₂ with ⟨su₂, lo₂, fe₂, ch₂, ms₂, es₂⟩
  subst h1 h2 h4 g1 g2 g4
  cases ch₁ <;> cases ch₂ <;>
    simp_all [check_appointments, tryBody, check_availability]

/-- Witness for C9's amended statement: two successful cycles over the
same (identical, already-known) slot list each perform the overwrite. -/
theorem c9_success_overwrites_witness :
    (check_appointments ⟨true, true, .ok ["a"], true, true, true⟩ {"a"}).wrote = true ∧
    (check_appointments ⟨true, true, .ok ["a"], true, true, true⟩
      (check_appointments ⟨true, true, .ok ["a"], true, true, true⟩ {"a"}).previous).wrote
      = true :=
  ⟨(c9_success_overwrites ⟨true, true, .ok ["a"], true, true, true⟩
      ⟨true, true, .ok ["a"], true, true, true⟩ {"a"} ["a"]
      rfl rfl (fun _ => rfl) rfl rfl rfl (fun _ => rfl) rfl).1,
    (c9_success_overwrites ⟨true, true, .ok ["a"], true, true, true⟩
      ⟨true, true, .ok ["a"], true, true, true⟩ {"a"} ["a"]
      rfl rfl (fun _ => rfl) rfl rfl rfl (fun _ => rfl) rfl).2.2.1⟩

/-- C10: on a successful poll cycle in which `client.get_channel`
returns no channel, no send of any kind is attempted, yet the overwrite
still executes and the state becomes the fetched snapshot — the state
update does not depend on a notification having been delivered. -/
theorem c10_no_channel_still_writes (o : Oracle) (prev : Snapshot)
    (hs : o.setupOk = true) (hl : o.loginOk = true)
    (hc : o.channelFound = false) :
    (check_appointments o prev).attempts = [] ∧
    (check_appointments o prev).wrote = true ∧
    (check_appointments o prev).previous = (check_availability o.fetch).toFinset := by
  rcases o with ⟨su, lo, fe, ch, ms, es⟩
  subst hs hl hc
  refine ⟨rfl, rfl, rfl⟩

/-- Witness for C10 at a concrete channelless cycle. -/
theorem c10_no_channel_still_writes_witness :
    (check_appointments ⟨true, true, .ok ["a"], false, true, true⟩ ∅).attempts = [] ∧
    (check_appointments ⟨true, true, .ok ["a"], false, true, true⟩ ∅).wrote = true :=
  ⟨(c10_no_channel_still_writes ⟨true, true, .ok ["a"], false, true, true⟩ ∅
      rfl rfl rfl).1,
    (c10_no_channel_still_writes ⟨true, true, .ok ["a"], false, true, true⟩ ∅
      rfl rfl rfl).2.1⟩

end ICBC
